import Mathlib

/-!
Verification development for the Callcenter API server (`api/src/server.py`).

The server keeps two in-memory maps (`call_status` keyed by call id,
`room_config` keyed by room name), both ordinary Python dicts mutated by the
HTTP handlers.  We model them as insertion-ordered association lists with
Python-dict update semantics (assignment to an existing key updates in place,
a new key is appended).  Handlers become pure state transformers; values
coming from the outside world (the generated UUID call id, the current
timestamp, the outcome of the Twilio `calls.create` request, the set of
currently live LiveKit rooms) are passed in as explicit parameters.
-/

namespace Callcenter

/-! ### Python string primitives

`s.replace(c, '')` for a single-character pattern removes every occurrence of
that character; `s.lstrip('+')` drops leading `+`; `s.strip()` trims
whitespace at both ends; `s.rstrip('/')` trims trailing slashes;
`s.startswith(p)` is a prefix test.  We model each directly on the character
list of the string. -/

/-- Python `s.replace(c, '')` for a one-character pattern: remove every
occurrence of the character `c`. -/
def removeChar (c : Char) (s : String) : String :=
  String.mk (s.data.filter (fun x => x != c))

/-- Python `s.lstrip('+')`: drop leading `+` characters. -/
def lstripPlus (s : String) : String :=
  String.mk (s.data.dropWhile (fun x => x == '+'))

/-- Boolean prefix test on character lists (helper for `startsWithStr`). -/
def startsWithChars : List Char → List Char → Bool
  | _, [] => true
  | [], _ :: _ => false
  | a :: as, b :: bs => a == b && startsWithChars as bs

/-- Python `s.startswith(p)`. -/
def startsWithStr (s p : String) : Bool :=
  startsWithChars s.data p.data

/-- Python `s.strip()`: trim whitespace at both ends. -/
def pyStrip (s : String) : String :=
  String.mk (((s.data.dropWhile Char.isWhitespace).reverse.dropWhile Char.isWhitespace).reverse)

/-- Python `s.rstrip('/')`: drop trailing slashes. -/
def rstripSlash (s : String) : String :=
  String.mk ((s.data.reverse.dropWhile (fun x => x == '/')).reverse)

/-! ### Python dicts as insertion-ordered association lists -/

/-- Python `d.get(k)` / `d[k]`: first value stored under key `k`. -/
def dictGet {α : Type} (k : String) : List (String × α) → Option α
  | [] => none
  | (k2, v) :: rest => if k2 = k then some v else dictGet k rest

/-- Python `d[k] = v`: update the entry in place when the key is present,
append a fresh entry otherwise (insertion-ordered dict semantics). -/
def dictSet {α : Type} (k : String) (v : α) : List (String × α) → List (String × α)
  | [] => [(k, v)]
  | (k2, v2) :: rest => if k2 = k then (k, v) :: rest else (k2, v2) :: dictSet k v rest

/-- Python `d[k]['field'] = ...`: apply `f` to the value stored under `k`
(no effect when the key is absent). -/
def dictUpdate {α : Type} (k : String) (f : α → α) : List (String × α) → List (String × α)
  | [] => []
  | (k2, v) :: rest => if k2 = k then (k2, f v) :: rest else (k2, v) :: dictUpdate k f rest

/-- Python `k in d`. -/
def dictHas {α : Type} (k : String) (l : List (String × α)) : Bool :=
  (dictGet k l).isSome

/-! ### Data model -/

/-- One entry of the `call_status` dict: the per-call record created by
`initiate_call` and mutated by the webhook handlers. -/
structure CallRecord where
  status : String
  phone : String
  language : String
  language_name : String
  prompt : String
  room_name : String
  twilio_call_sid : Option String
  created_at : String
deriving Repr, DecidableEq

/-- One entry of the `room_config` dict: the configuration the conversational
agent fetches by room name. -/
structure RoomConfig where
  phone : String
  language : String
  language_name : String
  prompt : String
  call_id : String
deriving Repr, DecidableEq

/-- The two in-memory maps of the server process. -/
structure ServerState where
  call_status : List (String × CallRecord)
  room_config : List (String × RoomConfig)
deriving Repr, DecidableEq

def ServerState.empty : ServerState :=
  { call_status := [], room_config := [] }

/-- Environment-derived configuration of the server process. -/
structure Config where
  TWILIO_ACCOUNT_SID : String
  TWILIO_AUTH_TOKEN : String
  TWILIO_PHONE_NUMBER : String
  API_BASE_URL : String
deriving Repr, DecidableEq

/-- `twilio_client` is initialized iff both account SID and auth token are
configured (`if TWILIO_ACCOUNT_SID and TWILIO_AUTH_TOKEN`). -/
def Config.twilioClient (cfg : Config) : Bool :=
  cfg.TWILIO_ACCOUNT_SID != "" && cfg.TWILIO_AUTH_TOKEN != ""

/-- Body of a `POST /call/initiate` request, with the `data.get` defaults
already applied to `language` / `language_name`.  The empty string models a
missing or empty (Python-falsy) `phone_number` / `prompt`. -/
structure InitiateRequest where
  phone_number : String
  language : String
  language_name : String
  prompt : String
deriving Repr, DecidableEq

/-- JSON response of `POST /call/initiate`; absent fields are `none`. -/
structure InitiateResponse where
  success : Bool
  httpCode : Nat
  error : Option String
  call_id : Option String
  predicted_room_name : Option String
  twilio_call_sid : Option String
  status : Option String
  message : Option String
deriving Repr, DecidableEq

/-- JSON response of `GET /call/config`; absent fields are `none`. -/
structure ConfigResponse where
  success : Bool
  httpCode : Nat
  error : Option String
  room_name : Option String
  phone : Option String
  language : Option String
  language_name : Option String
  prompt : Option String
  call_id : Option String
deriving Repr, DecidableEq

/-- JSON response of `GET /call/status`; absent fields are `none`. -/
structure StatusResponse where
  success : Bool
  httpCode : Nat
  error : Option String
  call_id : Option String
  status : Option String
  phone : Option String
  room_name : Option String
  twilio_call_sid : Option String
deriving Repr, DecidableEq

/-- Observable side effects of `initiate_call`, in program order: the two
dict writes and the outbound Twilio dial request (`twilio_client.calls.create`). -/
inductive Event where
  | storeCallRecord (call_id : String)
  | storeRoomConfig (room_name : String)
  | dialRequest (callee : String)
deriving Repr, DecidableEq

/-! ### RoomNameStrategy -/

/-- `generate_room_name` (server.py lines 82-123).  External inputs are
passed explicitly: `existing` is the set of live room names the LiveKit
`list_rooms` call returns, `timestamp` is `int(time.time())` and `uuid_hex8`
is `uuid.uuid4().hex[:8]`.  The phone number is cleaned of `+`, spaces,
dashes and parentheses. -/
def generate_room_name (phone_number : String) (existing : List String)
    (timestamp : Nat) (uuid_hex8 : String) : String :=
  let phone_cleaned :=
    removeChar ')' (removeChar '(' (removeChar '-' (removeChar ' ' (removeChar '+' phone_number))))
  let base_name := "call_" ++ phone_cleaned
  if base_name ∈ existing then
    let unique_name := base_name ++ "_" ++ toString timestamp
    if unique_name ∈ existing then
      base_name ++ "_" ++ uuid_hex8
    else
      unique_name
  else
    base_name

/-- Room-name prediction used inside `initiate_call` (lines 151-153): the
configured Twilio number cleaned of `+`, spaces and dashes, prefixed with
`call_`.  It depends on the server configuration only, not on the request. -/
def predicted_room_name (cfg : Config) : String :=
  "call_" ++ removeChar '-' (removeChar ' ' (removeChar '+' cfg.TWILIO_PHONE_NUMBER))

/-! ### CallOrchestrator: `POST /call/initiate` -/

/-- The `api_base` validation of `initiate_call` (lines 212-213):
`API_BASE_URL.strip().rstrip('/')` must start with `http://` or `https://`. -/
def api_base_ok (cfg : Config) : Prop :=
  startsWithStr (rstripSlash (pyStrip cfg.API_BASE_URL)) "http://" = true ∨
  startsWithStr (rstripSlash (pyStrip cfg.API_BASE_URL)) "https://" = true

instance (cfg : Config) : Decidable (api_base_ok cfg) := by
  unfold api_base_ok; infer_instance

/-- The CallRecord written by `initiate_call` (lines 160-169). -/
def initialRecord (req : InitiateRequest) (room now : String) : CallRecord :=
  { status := "initiating", phone := req.phone_number, language := req.language,
    language_name := req.language_name, prompt := req.prompt, room_name := room,
    twilio_call_sid := none, created_at := now }

/-- The RoomConfig written by `initiate_call` (lines 174-180). -/
def roomConfigOf (req : InitiateRequest) (call_id : String) : RoomConfig :=
  { phone := req.phone_number, language := req.language,
    language_name := req.language_name, prompt := req.prompt, call_id := call_id }

/-- `initiate_call` (server.py lines 125-263).  `call_id` models the freshly
generated `uuid.uuid4()`, `now` the `datetime.now().isoformat()` timestamp,
and `dialResult` the outcome of `twilio_client.calls.create` (`Except.ok sid`
when the carrier accepts the dial and returns call SID `sid`, `Except.error e`
when it raises).  Returns the JSON response, the new server state, and the
ordered list of observable side effects. -/
def initiate_call (cfg : Config) (req : InitiateRequest) (call_id : String)
    (now : String) (dialResult : Except String String) (s : ServerState) :
    InitiateResponse × ServerState × List Event :=
  if req.phone_number = "" ∨ req.prompt = "" then
    ({ success := false, httpCode := 400, error := some "phone_number and prompt required",
       call_id := none, predicted_room_name := none, twilio_call_sid := none,
       status := none, message := none }, s, [])
  else if cfg.TWILIO_PHONE_NUMBER = "" then
    ({ success := false, httpCode := 500, error := some "TWILIO_PHONE_NUMBER not configured",
       call_id := none, predicted_room_name := none, twilio_call_sid := none,
       status := none, message := none }, s, [])
  else
    let phone_cleaned :=
      if startsWithStr req.phone_number "+" then req.phone_number
      else "+" ++ removeChar '-' (removeChar ' ' (lstripPlus req.phone_number))
    let predicted := predicted_room_name cfg
    let s1 : ServerState :=
      { s with call_status := dictSet call_id (initialRecord req predicted now) s.call_status }
    let s2 : ServerState :=
      { s1 with room_config := dictSet predicted (roomConfigOf req call_id) s1.room_config }
    let ev := [Event.storeCallRecord call_id, Event.storeRoomConfig predicted]
    if cfg.twilioClient = false then
      ({ success := true, httpCode := 200, error := none, call_id := some call_id,
         predicted_room_name := some predicted, twilio_call_sid := none,
         status := some "ready",
         message := some "Ready for call. Room will be created automatically by dispatch rule when call arrives." },
       s2, ev)
    else if cfg.TWILIO_PHONE_NUMBER = "" then
      ({ success := false, httpCode := 500, error := some "TWILIO_PHONE_NUMBER not configured",
         call_id := some call_id, predicted_room_name := none, twilio_call_sid := none,
         status := none, message := none }, s2, ev)
    else
      if ¬ api_base_ok cfg then
        ({ success := false, httpCode := 500,
           error := some ("Invalid API_BASE_URL configuration: " ++ cfg.API_BASE_URL),
           call_id := some call_id, predicted_room_name := none, twilio_call_sid := none,
           status := none, message := none }, s2, ev)
      else
        match dialResult with
        | Except.ok sid =>
          let s3 : ServerState :=
            { s2 with call_status :=
                dictUpdate call_id (fun r => { r with twilio_call_sid := some sid, status := "queued" }) s2.call_status }
          ({ success := true, httpCode := 200, error := none, call_id := some call_id,
             predicted_room_name := some predicted, twilio_call_sid := some sid,
             status := some "queued",
             message := some "Call initiated successfully. Room will be created automatically by dispatch rule." },
           s3, ev ++ [Event.dialRequest phone_cleaned])
        | Except.error e =>
          let s3 : ServerState :=
            { s2 with call_status :=
                dictUpdate call_id (fun r => { r with status := "failed" }) s2.call_status }
          ({ success := false, httpCode := 500,
             error := some ("Failed to initiate call: " ++ e),
             call_id := some call_id, predicted_room_name := none, twilio_call_sid := none,
             status := none, message := none }, s3, ev ++ [Event.dialRequest phone_cleaned])

/-! ### WebhookRouter -/

/-- The `status_map` dict of `twilio_status` (lines 385-394). -/
def status_map : List (String × String) :=
  [("queued", "queued"), ("ringing", "ringing"), ("in-progress", "connected"),
   ("completed", "completed"), ("busy", "busy"), ("failed", "failed"),
   ("no-answer", "no-answer"), ("canceled", "cancelled")]

/-- `status_map.get(call_status_twilio, call_status_twilio)`: map a carrier
phase through the table, passing unmapped phases through verbatim. -/
def mapStatus (phase : String) : String :=
  (dictGet phase status_map).getD phase

/-- The linear scan of `twilio_status` (lines 377-381): first call id whose
record's `twilio_call_sid` equals the carrier `CallSid`. -/
def findBySid (sid : Option String) : List (String × CallRecord) → Option String
  | [] => none
  | (cid, r) :: rest => if r.twilio_call_sid = sid then some cid else findBySid sid rest

/-- `POST /webhook/twilio/status` (lines 366-405), state effect.  `sid` is the
`CallSid` form field (`none` when absent), `phase` the `CallStatus` form field
(assumed present).  Finds the record by carrier call SID and overwrites its
status with the mapped phase; `if call_id and call_id in call_status` fails
only for the falsy empty-string key. -/
def twilio_status (sid : Option String) (phase : String) (s : ServerState) : ServerState :=
  match findBySid sid s.call_status with
  | none => s
  | some cid =>
    if cid = "" then s
    else { s with call_status :=
            dictUpdate cid (fun r => { r with status := mapStatus phase }) s.call_status }

/-- `POST /webhook/twilio/dial-status` (lines 338-364), state effect: on a
`DialCallStatus` of `failed`, force the record (looked up by the `call_id`
query parameter) to `sip_failed`; otherwise no state change. -/
def twilio_dial_status (call_id : Option String) (dialCallStatus : Option String)
    (s : ServerState) : ServerState :=
  if dialCallStatus = some "failed" then
    match call_id with
    | none => s
    | some cid =>
      if cid = "" then s
      else if dictHas cid s.call_status then
        { s with call_status := dictUpdate cid (fun r => { r with status := "sip_failed" }) s.call_status }
      else s
  else s

/-- `POST /webhook/twilio/answer` (lines 265-336), state effect: mark the
record identified by the `call_id` query parameter as `answered` (the TwiML
bridging response it also returns carries no state). -/
def twilio_answer (call_id : Option String) (s : ServerState) : ServerState :=
  match call_id with
  | none => s
  | some cid =>
    if cid = "" then s
    else if dictHas cid s.call_status then
      { s with call_status := dictUpdate cid (fun r => { r with status := "answered" }) s.call_status }
    else s

/-- `GET /call/config` (lines 424-441): read-only lookup of `room_config`. -/
def get_call_config (room_name : Option String) (s : ServerState) : ConfigResponse :=
  match room_name with
  | none =>
    { success := false, httpCode := 404, error := some "Room config not found",
      room_name := none, phone := none, language := none, language_name := none,
      prompt := none, call_id := none }
  | some rn =>
    if rn = "" then
      { success := false, httpCode := 404, error := some "Room config not found",
        room_name := none, phone := none, language := none, language_name := none,
        prompt := none, call_id := none }
    else
      match dictGet rn s.room_config with
      | none =>
        { success := false, httpCode := 404, error := some "Room config not found",
          room_name := none, phone := none, language := none, language_name := none,
          prompt := none, call_id := none }
      | some c =>
        { success := true, httpCode := 200, error := none, room_name := some rn,
          phone := some c.phone, language := some c.language,
          language_name := some c.language_name, prompt := some c.prompt,
          call_id := some c.call_id }

/-- `GET /call/status` (lines 407-422): read-only lookup of `call_status`. -/
def get_call_status (call_id : Option String) (s : ServerState) : StatusResponse :=
  match call_id with
  | none =>
    { success := false, httpCode := 404, error := some "Call not found",
      call_id := none, status := none, phone := none, room_name := none,
      twilio_call_sid := none }
  | some cid =>
    if cid = "" then
      { success := false, httpCode := 404, error := some "Call not found",
        call_id := none, status := none, phone := none, room_name := none,
        twilio_call_sid := none }
    else
      match dictGet cid s.call_status with
      | none =>
        { success := false, httpCode := 404, error := some "Call not found",
          call_id := none, status := none, phone := none, room_name := none,
          twilio_call_sid := none }
      | some r =>
        { success := true, httpCode := 200, error := none, call_id := some cid,
          status := some r.status, phone := some r.phone,
          room_name := some r.room_name, twilio_call_sid := r.twilio_call_sid }

/-- Status of the record stored under `cid`, when present. -/
def statusOf (cid : String) (s : ServerState) : Option String :=
  (dictGet cid s.call_status).map (fun r => r.status)

/-- Terminal states of the call-state machine (spec section 4.3). -/
def terminalStates : List String :=
  ["completed", "busy", "failed", "no-answer", "cancelled", "sip_failed"]

/-! ### Concrete fixtures used by witnesses and counterexamples -/

/-- A fully configured server: carrier credentials, source number, base URL. -/
def cfg0 : Config :=
  { TWILIO_ACCOUNT_SID := "AC123", TWILIO_AUTH_TOKEN := "tok",
    TWILIO_PHONE_NUMBER := "+15551234567", API_BASE_URL := "https://api.example.com" }

/-- No carrier configuration at all (no credentials, no source number). -/
def cfgNoDial : Config :=
  { TWILIO_ACCOUNT_SID := "", TWILIO_AUTH_TOKEN := "",
    TWILIO_PHONE_NUMBER := "", API_BASE_URL := "https://api.example.com" }

/-- Source number configured but carrier credentials missing. -/
def cfgNoCreds : Config :=
  { TWILIO_ACCOUNT_SID := "", TWILIO_AUTH_TOKEN := "",
    TWILIO_PHONE_NUMBER := "+15551234567", API_BASE_URL := "https://api.example.com" }

/-- Carrier credentials configured but the source number missing. -/
def cfgNoPhone : Config :=
  { TWILIO_ACCOUNT_SID := "AC123", TWILIO_AUTH_TOKEN := "tok",
    TWILIO_PHONE_NUMBER := "", API_BASE_URL := "https://api.example.com" }

/-- Fully configured carrier but a base URL without an http(s) scheme. -/
def cfgBadBase : Config :=
  { TWILIO_ACCOUNT_SID := "AC123", TWILIO_AUTH_TOKEN := "tok",
    TWILIO_PHONE_NUMBER := "+15551234567", API_BASE_URL := "api.example.com" }

/-- A valid initiate request. -/
def req0 : InitiateRequest :=
  { phone_number := "+15550001111", language := "es-ES", language_name := "Spanish",
    prompt := "You are booking a dinner reservation." }

/-- A second valid initiate request with different destination and prompt. -/
def reqB : InitiateRequest :=
  { phone_number := "+15552223333", language := "fr-FR", language_name := "French",
    prompt := "Second call prompt." }

/-- State after one successful initiation with dial accepted (SID `CA1`). -/
def st1 : ServerState :=
  (initiate_call cfg0 req0 "id-1" "t1" (Except.ok "CA1") ServerState.empty).2.1

/-- `st1` after a `completed` status callback: record `id-1` is terminal. -/
def st2 : ServerState :=
  twilio_status (some "CA1") "completed" st1

/-! ### Association-list lemmas -/

theorem dictGet_dictSet_self {α : Type} (k : String) (v : α) (l : List (String × α)) :
    dictGet k (dictSet k v l) = some v := by
  induction l with
  | nil => simp [dictSet, dictGet]
  | cons hd tl ih =>
    obtain ⟨k2, v2⟩ := hd
    by_cases hk : k2 = k
    · simp [dictSet, dictGet, hk]
    · simp [dictSet, dictGet, hk, ih]

theorem dictGet_dictSet_ne {α : Type} (k k2 : String) (v : α) (l : List (String × α))
    (h : k2 ≠ k) : dictGet k (dictSet k2 v l) = dictGet k l := by
  induction l with
  | nil => simp [dictSet, dictGet, h]
  | cons hd tl ih =>
    obtain ⟨k3, v3⟩ := hd
    by_cases hk : k3 = k2
    · subst hk
      simp [dictSet, dictGet, h]
    · by_cases hk2 : k3 = k
      · simp [dictSet, dictGet, hk, hk2, h.symm]
      · simp [dictSet, dictGet, hk, hk2, ih]

theorem dictHas_dictSet {α : Type} (k k2 : String) (v : α) (l : List (String × α))
    (h : dictHas k l = true) : dictHas k (dictSet k2 v l) = true := by
  by_cases hk : k2 = k
  · subst hk
    simp [dictHas, dictGet_dictSet_self]
  · simpa [dictHas, dictGet_dictSet_ne k k2 v l hk] using h

theorem dictGet_dictUpdate_self {α : Type} (k : String) (f : α → α) (l : List (String × α)) :
    dictGet k (dictUpdate k f l) = (dictGet k l).map f := by
  induction l with
  | nil => simp [dictUpdate, dictGet]
  | cons hd tl ih =>
    obtain ⟨k2, v2⟩ := hd
    by_cases hk : k2 = k
    · simp [dictUpdate, dictGet, hk]
    · simp [dictUpdate, dictGet, hk, ih]

theorem findBySid_isSome (sid : Option String) (cid : String)
    (l : List (String × CallRecord)) (h : findBySid sid l = some cid) :
    (dictGet cid l).isSome = true := by
  induction l with
  | nil => simp [findBySid] at h
  | cons hd tl ih =>
    obtain ⟨k, r⟩ := hd
    by_cases hs : r.twilio_call_sid = sid
    · simp [findBySid, hs] at h
      simp [dictGet, h]
    · simp [findBySid, hs] at h
      by_cases hk : k = cid
      · simp [dictGet, hk]
      · simp [dictGet, hk, ih h]

theorem findBySid_dictUpdate_status (sid : Option String) (cid st : String)
    (l : List (String × CallRecord)) :
    findBySid sid (dictUpdate cid (fun r => { r with status := st }) l) = findBySid sid l := by
  induction l with
  | nil => simp [dictUpdate, findBySid]
  | cons hd tl ih =>
    obtain ⟨k, r⟩ := hd
    by_cases hk : k = cid
    · simp [dictUpdate, findBySid, hk]
    · simp [dictUpdate, findBySid, hk, ih]

theorem dictUpdate_status_idem (cid st : String) (l : List (String × CallRecord)) :
    dictUpdate cid (fun r => { r with status := st })
      (dictUpdate cid (fun r => { r with status := st }) l) =
    dictUpdate cid (fun r => { r with status := st }) l := by
  induction l with
  | nil => simp [dictUpdate]
  | cons hd tl ih =>
    obtain ⟨k, r⟩ := hd
    by_cases hk : k = cid
    · simp [dictUpdate, hk]
    · simp [dictUpdate, hk, ih]

theorem dictGet_eq_none_of_not_mem {α : Type} (k : String) (l : List (String × α))
    (h : k ∉ l.map Prod.fst) : dictGet k l = none := by
  induction l with
  | nil => rfl
  | cons hd tl ih =>
    obtain ⟨k2, v2⟩ := hd
    simp only [List.map_cons, List.mem_cons] at h
    push_neg at h
    simp [dictGet, Ne.symm h.1, ih h.2]

/-! ### Basic facts about the embedded operations -/

theorem call_append_ne_empty (x : String) : "call_" ++ x ≠ "" := by
  intro h
  have h2 := congrArg String.data h
  rw [String.data_append] at h2
  simp at h2

theorem predicted_room_name_ne_empty (cfg : Config) : predicted_room_name cfg ≠ "" :=
  call_append_ne_empty _

/-- A matched (and non-falsy) status callback overwrites the record's status
with the mapped carrier phase, whatever it was before. -/
theorem twilio_status_statusOf (s : ServerState) (sid : Option String) (phase : String)
    (cid : String) (h1 : findBySid sid s.call_status = some cid) (h2 : cid ≠ "") :
    statusOf cid (twilio_status sid phase s) = some (mapStatus phase) := by
  have hs := findBySid_isSome sid cid s.call_status h1
  obtain ⟨r, hr⟩ := Option.isSome_iff_exists.mp hs
  unfold twilio_status
  rw [h1]
  simp only [h2, if_false, statusOf, dictGet_dictUpdate_self, hr]
  rfl

/-- Characterization of a successful `initiate_call`: the response carries the
predicted room name and the new state's `room_config` stores the request's
configuration under that name. -/
theorem initiate_success (cfg : Config) (req : InitiateRequest) (call_id now : String)
    (dial : Except String String) (s : ServerState)
    (h : (initiate_call cfg req call_id now dial s).1.success = true) :
    (initiate_call cfg req call_id now dial s).1.predicted_room_name =
      some (predicted_room_name cfg) ∧
    (initiate_call cfg req call_id now dial s).2.1.room_config =
      dictSet (predicted_room_name cfg) (roomConfigOf req call_id) s.room_config := by
  by_cases hA : req.phone_number = "" ∨ req.prompt = ""
  · simp [initiate_call, hA] at h
  by_cases hB : cfg.TWILIO_PHONE_NUMBER = ""
  · simp [initiate_call, hA, hB] at h
  by_cases hC : cfg.twilioClient = false
  · simp [initiate_call, hA, hB, hC]
  by_cases hD : api_base_ok cfg
  · cases dial with
    | ok sid => simp [initiate_call, hA, hB, hC, hD]
    | error e => simp [initiate_call, hA, hB, hC, hD] at h
  · simp [initiate_call, hA, hB, hC, hD] at h

/-! ### Claims -/

/-- C1, counterexample: with the carrier caller number configured as
`+15551234567`, the first initiation predicts room `call_15551234567`, but a
second initiation while the first room is still live predicts the very same
identifier instead of a disambiguated one — `initiate_call` never consults the
live-room list and never appends a timestamp or random suffix. -/
theorem C1_counterexample :
    (initiate_call cfg0 req0 "id-1" "t1" (Except.ok "CA1") ServerState.empty).1.predicted_room_name
      = some "call_15551234567" ∧
    (initiate_call cfg0 req0 "id-2" "t2" (Except.ok "CA2") st1).1.predicted_room_name
      = some "call_15551234567" ∧
    (initiate_call cfg0 req0 "id-2" "t2" (Except.ok "CA2") st1).1.predicted_room_name
      = (initiate_call cfg0 req0 "id-1" "t1" (Except.ok "CA1") ServerState.empty).1.predicted_room_name := by
  decide

/-- C1, amended: the timestamp/random disambiguation lives only in the
`generate_room_name` helper, which the initiation path never calls.  For
caller number `+15551234567` the helper returns `call_15551234567` when no
live room has that name, `call_15551234567_<timestamp>` when it does, and
`call_15551234567_<random>` when the timestamped name also collides; the
initiation path itself always predicts `call_15551234567` from the configured
carrier number alone, identically on every initiation. -/
theorem C1_room_prediction (existing : List String) (ts : Nat) (u : String) (cfg : Config)
    (hcfg : cfg.TWILIO_PHONE_NUMBER = "+15551234567") :
    ("call_15551234567" ∉ existing →
      generate_room_name "+15551234567" existing ts u = "call_15551234567") ∧
    ("call_15551234567" ∈ existing → ("call_15551234567_" ++ toString ts) ∉ existing →
      generate_room_name "+15551234567" existing ts u = "call_15551234567_" ++ toString ts) ∧
    ("call_15551234567" ∈ existing → ("call_15551234567_" ++ toString ts) ∈ existing →
      generate_room_name "+15551234567" existing ts u = "call_15551234567_" ++ u) ∧
    predicted_room_name cfg = "call_15551234567" := by
  have hb : ("call_" : String) ++
      removeChar ')' (removeChar '(' (removeChar '-' (removeChar ' ' (removeChar '+' "+15551234567"))))
      = "call_15551234567" := by decide
  have hb2 : ("call_15551234567" : String) ++ "_" = "call_15551234567_" := by decide
  refine ⟨?_, ?_, ?_, ?_⟩
  · intro h1
    simp only [generate_room_name, hb]
    exact if_neg h1
  · intro h1 h2
    simp only [generate_room_name, hb, hb2]
    rw [if_pos h1, if_neg h2]
  · intro h1 h2
    simp only [generate_room_name, hb, hb2]
    rw [if_pos h1, if_pos h2]
  · simp only [predicted_room_name, hcfg]
    decide

theorem C1_room_prediction_witness :
    generate_room_name "+15551234567" [] 5 "abcd1234" = "call_15551234567" ∧
    generate_room_name "+15551234567" ["call_15551234567"] 5 "abcd1234" = "call_15551234567_" ++ toString 5 ∧
    generate_room_name "+15551234567" ["call_15551234567", "call_15551234567_5"] 5 "abcd1234"
      = "call_15551234567_" ++ "abcd1234" ∧
    predicted_room_name cfg0 = "call_15551234567" :=
  ⟨(C1_room_prediction [] 5 "abcd1234" cfg0 rfl).1 (by decide),
   (C1_room_prediction ["call_15551234567"] 5 "abcd1234" cfg0 rfl).2.1 (by decide) (by decide),
   (C1_room_prediction ["call_15551234567", "call_15551234567_5"] 5 "abcd1234" cfg0 rfl).2.2.1
     (by decide) (by decide),
   (C1_room_prediction [] 5 "abcd1234" cfg0 rfl).2.2.2⟩

/-- C2, counterexample: the RoomConfig stored at the first initiation under
room `call_15551234567` is replaced wholesale by a second initiation, which
writes its own configuration (different phone, prompt and call id) under the
same key, so the entry does not remain unchanged. -/
theorem C2_counterexample :
    dictGet "call_15551234567" st1.room_config =
      some { phone := "+15550001111", language := "es-ES", language_name := "Spanish",
             prompt := "You are booking a dinner reservation.", call_id := "id-1" } ∧
    dictGet "call_15551234567"
        ((initiate_call cfg0 reqB "id-2" "t2" (Except.ok "CA2") st1).2.1).room_config =
      some { phone := "+15552223333", language := "fr-FR", language_name := "French",
             prompt := "Second call prompt.", call_id := "id-2" } := by
  decide

/-- C2, amended: RoomConfig entries are never deleted, and webhook deliveries
(status, dial-status, answer) never change `room_config` at all; but a
subsequent initiation overwrites the entry stored under the (always identical)
predicted room key, so a stored RoomConfig is only stable until the next
initiation. -/
theorem C2_roomconfig_stability (s : ServerState) (sid cid2 dcs : Option String)
    (phase : String) (cfg : Config) (req : InitiateRequest) (c n : String)
    (d : Except String String) (k : String) :
    (twilio_status sid phase s).room_config = s.room_config ∧
    (twilio_dial_status cid2 dcs s).room_config = s.room_config ∧
    (twilio_answer cid2 s).room_config = s.room_config ∧
    (dictHas k s.room_config = true →
      dictHas k ((initiate_call cfg req c n d s).2.1).room_config = true) := by
  refine ⟨?_, ?_, ?_, ?_⟩
  · unfold twilio_status
    repeat first | rfl | split
  · unfold twilio_dial_status
    repeat first | rfl | split
  · unfold twilio_answer
    repeat first | rfl | split
  · intro hk
    by_cases hA : req.phone_number = "" ∨ req.prompt = ""
    · simpa [initiate_call, hA] using hk
    by_cases hB : cfg.TWILIO_PHONE_NUMBER = ""
    · simpa [initiate_call, hA, hB] using hk
    by_cases hC : cfg.twilioClient = false
    · simp [initiate_call, hA, hB, hC]
      exact dictHas_dictSet _ _ _ _ hk
    by_cases hD : api_base_ok cfg
    · cases d with
      | ok sid2 =>
        simp [initiate_call, hA, hB, hC, hD]
        exact dictHas_dictSet _ _ _ _ hk
      | error e =>
        simp [initiate_call, hA, hB, hC, hD]
        exact dictHas_dictSet _ _ _ _ hk
    · simp [initiate_call, hA, hB, hC, hD]
      exact dictHas_dictSet _ _ _ _ hk

theorem C2_roomconfig_stability_witness :
    (twilio_status (some "CA1") "ringing" st1).room_config = st1.room_config ∧
    dictHas "call_15551234567"
      ((initiate_call cfg0 reqB "id-2" "t2" (Except.ok "CA2") st1).2.1).room_config = true :=
  ⟨(C2_roomconfig_stability st1 (some "CA1") (some "id-1") none "ringing" cfg0 reqB
      "id-2" "t2" (Except.ok "CA2") "call_15551234567").1,
   (C2_roomconfig_stability st1 (some "CA1") (some "id-1") none "ringing" cfg0 reqB
      "id-2" "t2" (Except.ok "CA2") "call_15551234567").2.2.2 (by decide)⟩

/-- C3, counterexample: record `id-1` reaches the terminal status `completed`,
yet a later status callback for the same carrier call SID with phase `ringing`
moves it back to `ringing` — the terminal call is resurrected. -/
theorem C3_counterexample :
    statusOf "id-1" st2 = some "completed" ∧
    "completed" ∈ terminalStates ∧
    statusOf "id-1" (twilio_status (some "CA1") "ringing" st2) = some "ringing" := by
  decide

/-- C3, amended: the status-callback handler enforces no transition graph: any
callback whose carrier call SID matches a stored record overwrites the
record's status with the mapped phase, even when the current status is
terminal, so terminal calls can be resurrected. -/
theorem C3_status_overwrite (s : ServerState) (sid : Option String) (phase cid : String)
    (h1 : findBySid sid s.call_status = some cid) (h2 : cid ≠ "")
    (_h3 : ∃ st, statusOf cid s = some st ∧ st ∈ terminalStates) :
    statusOf cid (twilio_status sid phase s) = some (mapStatus phase) :=
  twilio_status_statusOf s sid phase cid h1 h2

theorem C3_status_overwrite_witness :
    statusOf "id-1" (twilio_status (some "CA1") "ringing" st2) = some "ringing" :=
  C3_status_overwrite st2 (some "CA1") "ringing" "id-1" (by decide) (by decide)
    ⟨"completed", by decide⟩

/-- C4: in every execution of `initiate_call`, if the outbound dial request is
placed at all, the trace of side effects is exactly the CallRecord store, then
the RoomConfig store, then the dial — both in-memory writes happen strictly
before the external call is attempted. -/
theorem C4_store_before_dial (cfg : Config) (req : InitiateRequest) (call_id now : String)
    (dial : Except String String) (s : ServerState) (x : String)
    (h : Event.dialRequest x ∈ (initiate_call cfg req call_id now dial s).2.2) :
    (initiate_call cfg req call_id now dial s).2.2 =
      [Event.storeCallRecord call_id, Event.storeRoomConfig (predicted_room_name cfg),
       Event.dialRequest x] := by
  by_cases hA : req.phone_number = "" ∨ req.prompt = ""
  · simp [initiate_call, hA] at h
  by_cases hB : cfg.TWILIO_PHONE_NUMBER = ""
  · simp [initiate_call, hA, hB] at h
  by_cases hC : cfg.twilioClient = false
  · simp [initiate_call, hA, hB, hC] at h
  by_cases hD : api_base_ok cfg
  · cases dial with
    | ok sid =>
      simp only [initiate_call, hA, hB, hC, hD] at h ⊢
      simp at h ⊢
      simp [h]
    | error e =>
      simp only [initiate_call, hA, hB, hC, hD] at h ⊢
      simp at h ⊢
      simp [h]
  · simp [initiate_call, hA, hB, hC, hD] at h

theorem C4_store_before_dial_witness :
    (initiate_call cfg0 req0 "id-1" "t1" (Except.ok "CA1") ServerState.empty).2.2 =
      [Event.storeCallRecord "id-1", Event.storeRoomConfig (predicted_room_name cfg0),
       Event.dialRequest "+15550001111"] :=
  C4_store_before_dial cfg0 req0 "id-1" "t1" (Except.ok "CA1") ServerState.empty
    "+15550001111" (by decide)

/-- C5: whenever `initiate_call` responds with success, the response carries
the predicted room name, and an immediately following `GET /call/config` for
that room name on the post-initiation state returns success together with
exactly the phone, language, language name and prompt supplied at initiation
plus the allocated call id. -/
theorem C5_config_after_initiate (cfg : Config) (req : InitiateRequest) (call_id now : String)
    (dial : Except String String) (s : ServerState)
    (h : (initiate_call cfg req call_id now dial s).1.success = true) :
    (initiate_call cfg req call_id now dial s).1.predicted_room_name =
      some (predicted_room_name cfg) ∧
    get_call_config (some (predicted_room_name cfg))
        (initiate_call cfg req call_id now dial s).2.1 =
      { success := true, httpCode := 200, error := none,
        room_name := some (predicted_room_name cfg),
        phone := some req.phone_number, language := some req.language,
        language_name := some req.language_name, prompt := some req.prompt,
        call_id := some call_id } := by
  obtain ⟨hpred, hroom⟩ := initiate_success cfg req call_id now dial s h
  refine ⟨hpred, ?_⟩
  simp [get_call_config, hroom, dictGet_dictSet_self, predicted_room_name_ne_empty cfg,
    roomConfigOf]

theorem C5_config_after_initiate_witness :
    get_call_config (some (predicted_room_name cfg0)) st1 =
      { success := true, httpCode := 200, error := none,
        room_name := some (predicted_room_name cfg0),
        phone := some "+15550001111", language := some "es-ES",
        language_name := some "Spanish",
        prompt := some "You are booking a dinner reservation.",
        call_id := some "id-1" } :=
  (C5_config_after_initiate cfg0 req0 "id-1" "t1" (Except.ok "CA1") ServerState.empty
    (by decide)).2

/-- C6: a status callback whose carrier call SID matches a stored record sets
that record's status to the image of the carrier phase under the fixed lookup
table; in particular `in-progress` maps to `connected`, and any phase outside
the table passes through verbatim rather than being rejected. -/
theorem C6_status_mapping (s : ServerState) (sid : Option String) (phase cid : String)
    (h1 : findBySid sid s.call_status = some cid) (h2 : cid ≠ "") :
    statusOf cid (twilio_status sid phase s) = some (mapStatus phase) ∧
    mapStatus "in-progress" = "connected" ∧
    (phase ∉ status_map.map Prod.fst → mapStatus phase = phase) := by
  refine ⟨twilio_status_statusOf s sid phase cid h1 h2, by decide, ?_⟩
  intro hn
  unfold mapStatus
  rw [dictGet_eq_none_of_not_mem phase status_map hn]
  rfl

theorem C6_status_mapping_witness :
    statusOf "id-1" (twilio_status (some "CA1") "weird-phase" st1) = some "weird-phase" ∧
    mapStatus "in-progress" = "connected" ∧
    mapStatus "weird-phase" = "weird-phase" :=
  ⟨(C6_status_mapping st1 (some "CA1") "weird-phase" "id-1" (by decide) (by decide)).1,
   (C6_status_mapping st1 (some "CA1") "weird-phase" "id-1" (by decide) (by decide)).2.1,
   (C6_status_mapping st1 (some "CA1") "weird-phase" "id-1" (by decide) (by decide)).2.2
     (by decide)⟩

/-- C7, counterexample: with the carrier dial integration entirely
unconfigured (no credentials and no source number), a valid initiate request
does not return success: the missing `TWILIO_PHONE_NUMBER` makes
`initiate_call` fail with a 500 before creating any room config. -/
theorem C7_counterexample :
    (initiate_call cfgNoDial req0 "id-1" "t1" (Except.ok "CA1") ServerState.empty).1.success
      = false ∧
    (initiate_call cfgNoDial req0 "id-1" "t1" (Except.ok "CA1") ServerState.empty).1.httpCode
      = 500 := by
  decide

/-- C7, amended: only the carrier credentials are optional.  For a valid
request with no Twilio client configured, initiation still succeeds with
status `ready` provided the carrier source phone number is configured; when
the source number itself is missing, initiation fails with a 500
`TWILIO_PHONE_NUMBER not configured` error instead of degrading to success. -/
theorem C7_optional_dial (cfg : Config) (req : InitiateRequest) (call_id now : String)
    (dial : Except String String) (s : ServerState)
    (hp : req.phone_number ≠ "") (hq : req.prompt ≠ "") (hc : cfg.twilioClient = false) :
    (cfg.TWILIO_PHONE_NUMBER ≠ "" →
      (initiate_call cfg req call_id now dial s).1.success = true ∧
      (initiate_call cfg req call_id now dial s).1.status = some "ready" ∧
      (initiate_call cfg req call_id now dial s).1.call_id = some call_id) ∧
    (cfg.TWILIO_PHONE_NUMBER = "" →
      (initiate_call cfg req call_id now dial s).1.success = false ∧
      (initiate_call cfg req call_id now dial s).1.httpCode = 500 ∧
      (initiate_call cfg req call_id now dial s).1.error
        = some "TWILIO_PHONE_NUMBER not configured") := by
  constructor
  · intro hB
    simp [initiate_call, hp, hq, hB, hc]
  · intro hB
    simp [initiate_call, hp, hq, hB]

theorem C7_optional_dial_witness :
    ((initiate_call cfgNoCreds req0 "id-1" "t1" (Except.ok "CA1") ServerState.empty).1.success
        = true ∧
      (initiate_call cfgNoCreds req0 "id-1" "t1" (Except.ok "CA1") ServerState.empty).1.status
        = some "ready" ∧
      (initiate_call cfgNoCreds req0 "id-1" "t1" (Except.ok "CA1") ServerState.empty).1.call_id
        = some "id-1") ∧
    ((initiate_call cfgNoDial req0 "id-1" "t1" (Except.ok "CA1") ServerState.empty).1.success
        = false ∧
      (initiate_call cfgNoDial req0 "id-1" "t1" (Except.ok "CA1") ServerState.empty).1.httpCode
        = 500 ∧
      (initiate_call cfgNoDial req0 "id-1" "t1" (Except.ok "CA1") ServerState.empty).1.error
        = some "TWILIO_PHONE_NUMBER not configured") :=
  ⟨(C7_optional_dial cfgNoCreds req0 "id-1" "t1" (Except.ok "CA1") ServerState.empty
      (by decide) (by decide) (by decide)).1 (by decide),
   (C7_optional_dial cfgNoDial req0 "id-1" "t1" (Except.ok "CA1") ServerState.empty
      (by decide) (by decide) (by decide)).2 (by decide)⟩

/-- C8, counterexample: when `TWILIO_PHONE_NUMBER` is unset, `initiate_call`
fails after the call identifier has already been allocated (the UUID is drawn
before the check), yet the error response carries no `call_id` at all, so the
caller cannot poll status. -/
theorem C8_counterexample :
    (initiate_call cfgNoPhone req0 "id-1" "t1" (Except.ok "CA1") ServerState.empty).1.success
      = false ∧
    (initiate_call cfgNoPhone req0 "id-1" "t1" (Except.ok "CA1") ServerState.empty).1.error
      = some "TWILIO_PHONE_NUMBER not configured" ∧
    (initiate_call cfgNoPhone req0 "id-1" "t1" (Except.ok "CA1") ServerState.empty).1.call_id
      = none := by
  decide

/-- C8, amended: the failure responses of the base-URL validation path and of
the dial-request path carry `success:false`, a human-readable error and the
already-allocated call id; but the missing-source-number failure, although the
call id was already allocated, omits the call id from its error response. -/
theorem C8_error_paths (cfg : Config) (req : InitiateRequest) (call_id now : String)
    (dial : Except String String) (s : ServerState) (e : String)
    (hp : req.phone_number ≠ "") (hq : req.prompt ≠ "")
    (hB : cfg.TWILIO_PHONE_NUMBER ≠ "") (hc : cfg.twilioClient = true) :
    (¬ api_base_ok cfg →
      (initiate_call cfg req call_id now dial s).1.success = false ∧
      (initiate_call cfg req call_id now dial s).1.error
        = some ("Invalid API_BASE_URL configuration: " ++ cfg.API_BASE_URL) ∧
      (initiate_call cfg req call_id now dial s).1.call_id = some call_id) ∧
    (api_base_ok cfg → dial = Except.error e →
      (initiate_call cfg req call_id now dial s).1.success = false ∧
      (initiate_call cfg req call_id now dial s).1.error
        = some ("Failed to initiate call: " ++ e) ∧
      (initiate_call cfg req call_id now dial s).1.call_id = some call_id) := by
  constructor
  · intro hD
    simp [initiate_call, hp, hq, hB, hc, hD]
  · intro hD hE
    subst hE
    simp [initiate_call, hp, hq, hB, hc, hD]

theorem C8_error_paths_witness :
    ((initiate_call cfgBadBase req0 "id-1" "t1" (Except.ok "CA1") ServerState.empty).1.success
        = false ∧
      (initiate_call cfgBadBase req0 "id-1" "t1" (Except.ok "CA1") ServerState.empty).1.error
        = some ("Invalid API_BASE_URL configuration: " ++ cfgBadBase.API_BASE_URL) ∧
      (initiate_call cfgBadBase req0 "id-1" "t1" (Except.ok "CA1") ServerState.empty).1.call_id
        = some "id-1") ∧
    ((initiate_call cfg0 req0 "id-1" "t1" (Except.error "boom") ServerState.empty).1.success
        = false ∧
      (initiate_call cfg0 req0 "id-1" "t1" (Except.error "boom") ServerState.empty).1.error
        = some ("Failed to initiate call: " ++ "boom") ∧
      (initiate_call cfg0 req0 "id-1" "t1" (Except.error "boom") ServerState.empty).1.call_id
        = some "id-1") :=
  ⟨(C8_error_paths cfgBadBase req0 "id-1" "t1" (Except.ok "CA1") ServerState.empty "boom"
      (by decide) (by decide) (by decide) (by decide)).1 (by decide),
   (C8_error_paths cfg0 req0 "id-1" "t1" (Except.error "boom") ServerState.empty "boom"
      (by decide) (by decide) (by decide) (by decide)).2 (by decide) rfl⟩

/-- C9: delivering the same status callback twice (same carrier call SID,
same phase) leaves the store exactly as one delivery does — the handler sets
the matched record's status to the same mapped value and touches nothing
else, so the duplicate has no additional effect. -/
theorem C9_status_callback_idempotent (sid : Option String) (phase : String) (s : ServerState) :
    twilio_status sid phase (twilio_status sid phase s) = twilio_status sid phase s := by
  unfold twilio_status
  cases h : findBySid sid s.call_status with
  | none => simp [h]
  | some cid =>
    by_cases hc : cid = ""
    · simp [h, hc]
    · simp [h, hc, findBySid_dictUpdate_status, dictUpdate_status_idem]

/-- C10: the predicted room identifier is a function of the server
configuration only: two initiations under the same configuration predict the
same room name whatever destination numbers, languages and prompts they carry,
and the second initiation writes its RoomConfig under the same room key,
replacing the first request's entry. -/
theorem C10_prediction_request_independent (cfg : Config) (req1 req2 : InitiateRequest)
    (c1 c2 n1 n2 : String) (d1 d2 : Except String String) (s : ServerState)
    (h1 : (initiate_call cfg req1 c1 n1 d1 s).1.success = true)
    (h2 : (initiate_call cfg req2 c2 n2 d2
            (initiate_call cfg req1 c1 n1 d1 s).2.1).1.success = true) :
    (initiate_call cfg req1 c1 n1 d1 s).1.predicted_room_name =
      (initiate_call cfg req2 c2 n2 d2 (initiate_call cfg req1 c1 n1 d1 s).2.1).1.predicted_room_name ∧
    dictGet (predicted_room_name cfg)
        ((initiate_call cfg req2 c2 n2 d2 (initiate_call cfg req1 c1 n1 d1 s).2.1).2.1).room_config
      = some (roomConfigOf req2 c2) := by
  obtain ⟨hp1, h1r⟩ := initiate_success cfg req1 c1 n1 d1 s h1
  obtain ⟨hp2, hr2⟩ := initiate_success cfg req2 c2 n2 d2 _ h2
  refine ⟨by rw [hp1, hp2], ?_⟩
  rw [hr2, dictGet_dictSet_self]

theorem C10_prediction_request_independent_witness :
    (initiate_call cfg0 req0 "id-1" "t1" (Except.ok "CA1") ServerState.empty).1.predicted_room_name =
      (initiate_call cfg0 reqB "id-2" "t2" (Except.ok "CA2") st1).1.predicted_room_name ∧
    dictGet (predicted_room_name cfg0)
        ((initiate_call cfg0 reqB "id-2" "t2" (Except.ok "CA2") st1).2.1).room_config
      = some (roomConfigOf reqB "id-2") :=
  C10_prediction_request_independent cfg0 req0 reqB "id-1" "id-2" "t1" "t2"
    (Except.ok "CA1") (Except.ok "CA2") ServerState.empty (by decide) (by decide)

end Callcenter
